import Mathlib

/-!
Verification of the boink coin-flip oracle and contracts.

A shallow embedding, in Lean 4, of the bet-resolution oracle
(`api/oracle/check-pending.js`: the cron sweep handler and the single-bet
handler), the two Solidity contracts (`CoinFlip.sol`: `CoinFlipUSDC` and
`CoinFlipGasOnly`), the client-side outcome mapping (`CoinFlip.tsx`) and the
backend one-time bonus routes (`userRoutes`), together with theorems about
them.

Bytes are modelled as natural numbers below 256, byte strings as lists of
such numbers, and 256-bit EVM words as natural numbers reduced modulo 2^256
where overflow matters.  The `ethers.keccak256` library call is embedded as
a full executable Keccak-256 (original Keccak padding, as used by Ethereum).
Chain RPC calls are modelled as an explicit record of fallible functions
(`Chain`); a JavaScript `throw` is an `Except.error`.
-/

namespace Boink

/-! ## Keccak-256

Executable Keccak-256 over byte lists.  The state is 25 lanes of 64 bits,
kept as a `List Nat` (lane `(x, y)` at index `x + 5*y`, little-endian byte
order inside a lane), rate 1088 bits = 136 bytes, with the original Keccak
multi-rate padding `0x01 … 0x80` (Ethereum's `keccak256`, not SHA3-0x06). -/

/-- 64-bit complement: XOR with the all-ones 64-bit mask. -/
def not64 (x : Nat) : Nat := x ^^^ 0xFFFFFFFFFFFFFFFF

/-- Rotate a 64-bit lane left by `n` (for `0 ≤ n < 64`). -/
def rotl64 (x n : Nat) : Nat := ((x <<< n) ||| (x >>> (64 - n))) % (2 ^ 64)

/-- One step of the `rc` bit generator: an 8-bit LFSR for the polynomial
x⁸ + x⁶ + x⁵ + x⁴ + 1 (reduction mask 0x71). -/
def rcStep (r : Nat) : Nat :=
  ((r <<< 1) ^^^ ((r >>> 7) * 0x71)) % 256

/-- The LFSR register after `t` steps from its seed 1. -/
def rcReg : Nat → Nat
  | 0 => 1
  | t + 1 => rcStep (rcReg t)

/-- `rc(t)`: the low bit of the register. -/
def rcBit (t : Nat) : Nat := rcReg t % 2

/-- Keccak-f[1600] round constant `i`: the bits `rc(7i + j)` placed at
positions `2^j - 1` for `j = 0, …, 6`. -/
def keccakRCAt (i : Nat) : Nat :=
  (List.range 7).foldl (fun acc j => acc + rcBit (7 * i + j) * 2 ^ (2 ^ j - 1)) 0

/-- The 24 Keccak-f[1600] round constants. -/
def keccakRC : List Nat := (List.range 24).map keccakRCAt

/-- Rotation offsets `r[x,y]`, listed at index `x + 5*y`: generated by the
standard ρ walk — start at lane `(1,0)`, write `(t+1)(t+2)/2 mod 64`, move
to `(y, 2x+3y mod 5)`; lane `(0,0)` keeps offset 0. -/
def keccakRot : List Nat :=
  ((List.range 24).foldl
    (fun acc t =>
      let xw := acc.2.1
      let yw := acc.2.2
      (acc.1.set (xw + 5 * yw) ((t + 1) * (t + 2) / 2 % 64),
       yw, (2 * xw + 3 * yw) % 5))
    (List.replicate 25 0, 1, 0)).1

/-- Lane `(x, y)` of a 25-lane state. -/
def lane (st : List Nat) (x y : Nat) : Nat := st.getD (x + 5 * y) 0

/-- Keccak θ step. -/
def theta (st : List Nat) : List Nat :=
  let c := fun x => lane st x 0 ^^^ lane st x 1 ^^^ lane st x 2 ^^^
                    lane st x 3 ^^^ lane st x 4
  let d := fun x => c ((x + 4) % 5) ^^^ rotl64 (c ((x + 1) % 5)) 1
  (List.range 25).map (fun i => st.getD i 0 ^^^ d (i % 5))

/-- Keccak ρ and π steps combined: destination lane `(X, Y)` receives the
source lane `((X + 3Y) mod 5, X)` rotated by its offset. -/
def rhoPi (st : List Nat) : List Nat :=
  (List.range 25).map (fun i =>
    let xd := i % 5
    let yd := i / 5
    let xs := (xd + 3 * yd) % 5
    let ys := xd
    rotl64 (lane st xs ys) (keccakRot.getD (xs + 5 * ys) 0))

/-- Keccak χ step. -/
def chi (st : List Nat) : List Nat :=
  (List.range 25).map (fun i =>
    let x := i % 5
    let y := i / 5
    lane st x y ^^^ (not64 (lane st ((x + 1) % 5) y) &&& lane st ((x + 2) % 5) y))

/-- Keccak ι step: XOR the round constant into lane `(0,0)`. -/
def iota (rc : Nat) (st : List Nat) : List Nat :=
  match st with
  | [] => []
  | a :: rest => (a ^^^ rc) :: rest

/-- The full Keccak-f[1600] permutation: 24 rounds of θ, ρ/π, χ, ι. -/
def keccakF (st : List Nat) : List Nat :=
  keccakRC.foldl (fun s rc => iota rc (chi (rhoPi (theta s)))) st

/-- Interpret (up to) 8 bytes as a little-endian 64-bit lane. -/
def bytesToLane (bs : List Nat) : Nat :=
  bs.foldr (fun b acc => acc * 256 + b) 0

/-- The 8 little-endian bytes of a 64-bit lane. -/
def laneToBytes (x : Nat) : List Nat :=
  (List.range 8).map (fun i => x / 256 ^ i % 256)

/-- Original Keccak multi-rate padding for a message of length `len`, at
rate 136 bytes: `0x01 0x00 … 0x80`, collapsing to the single byte `0x81`. -/
def keccakPad (len : Nat) : List Nat :=
  let padLen := 136 - len % 136
  if padLen = 1 then [0x81]
  else 0x01 :: (List.replicate (padLen - 2) 0 ++ [0x80])

/-- Split a byte list into 136-byte blocks. -/
def chunks136 : List Nat → List (List Nat)
  | [] => []
  | a :: rest => ((a :: rest).take 136) :: chunks136 ((a :: rest).drop 136)
  termination_by l => l.length
  decreasing_by simp [List.length_drop]; omega

/-- Absorb one 136-byte block: XOR it into the first 17 lanes, then apply
the permutation. -/
def absorbBlock (st block : List Nat) : List Nat :=
  keccakF ((List.range 25).map (fun i =>
    if i < 17 then st.getD i 0 ^^^ bytesToLane ((block.drop (8 * i)).take 8)
    else st.getD i 0))

/-- Keccak-256 of a byte list: absorb the padded message from the all-zero
state, then squeeze the first 32 bytes (4 lanes). -/
def keccak256 (msg : List Nat) : List Nat :=
  let st := (chunks136 (msg ++ keccakPad msg.length)).foldl absorbBlock
              (List.replicate 25 0)
  ((List.range 4).map (fun i => laneToBytes (st.getD i 0))).flatten

/-! ## ABI encoding and the commitment scheme

`ethers.AbiCoder.defaultAbiCoder().encode` lays each `bytes32`/`uint256`
argument out as a 32-byte big-endian word. -/

/-- Big-endian 32-byte encoding of a 256-bit word (value taken mod 2^256
by dropping higher bytes). -/
def beBytes32 (x : Nat) : List Nat :=
  (List.range 32).map (fun i => x / 256 ^ (31 - i) % 256)

/-- Read a byte list as a big-endian natural number. -/
def natOfBytes (bs : List Nat) : Nat :=
  bs.foldl (fun acc b => acc * 256 + b) 0

/-- `abiCoder.encode(["bytes32", "uint256", "uint256"], [a, b, c])`. -/
def abiEncode3 (a b c : Nat) : List Nat :=
  beBytes32 a ++ beBytes32 b ++ beBytes32 c

/-- `abiCoder.encode(["uint256", "bytes32"], [a, b])`. -/
def abiEncode2 (a b : Nat) : List Nat :=
  beBytes32 a ++ beBytes32 b

/-- `random` as computed by the sweep resolver (`resolveBet`,
check-pending.js lines 69–75):
`keccak256(encode(["bytes32","uint256","uint256"], [SERVER_SEED, clientSeed, betId]))`. -/
def sweepRandom (serverSeed clientSeed betId : Nat) : Nat :=
  natOfBytes (keccak256 (abiEncode3 serverSeed clientSeed betId))

/-- `msgHash` as computed by the sweep resolver (lines 78–83):
`keccak256(encode(["uint256","bytes32"], [betId, random]))`. -/
def sweepMsgHash (serverSeed clientSeed betId : Nat) : Nat :=
  natOfBytes (keccak256 (abiEncode2 betId (sweepRandom serverSeed clientSeed betId)))

/-- `random` as computed by the single-bet handler (lines 311–316). -/
def singleRandom (serverSeed clientSeed betId : Nat) : Nat :=
  natOfBytes (keccak256 (abiEncode3 serverSeed clientSeed betId))

/-- `msgHash` as computed by the single-bet handler (lines 319–324). -/
def singleMsgHash (serverSeed clientSeed betId : Nat) : Nat :=
  natOfBytes (keccak256 (abiEncode2 betId (singleRandom serverSeed clientSeed betId)))

/-! ## Outcome selection (CoinFlip.sol and the client) -/

/-- `enum Side { Heads, Tails }` of CoinFlip.sol. -/
inductive Side
  | Heads
  | Tails
deriving DecidableEq, Repr

/-- Solidity enum values: `Heads = 0`, `Tails = 1`. -/
def Side.val : Side → Nat
  | .Heads => 0
  | .Tails => 1

/-- The outcome rule of CoinFlip.sol (line 98 of `CoinFlipUSDC.flip`, and
`CoinFlipGasOnly._bitToSide`, lines 187–189):
`(uint8(h[0]) & 1) == 0 ? Side.Heads : Side.Tails`.  The digest is taken as
its byte list, whose head is the leading byte `h[0]` of the `bytes32`. -/
def bitToSide (h : List Nat) : Side :=
  if h.headD 0 &&& 1 = 0 then .Heads else .Tails

/-- The client-side outcome mapping (CoinFlip.tsx, `handleFlip`):
`resolveResult.outcome === 0 ? "heads" : "tails"`. -/
def clientOutcomeSide (o : Nat) : String :=
  if o = 0 then "heads" else "tails"

/-! ## The contracts (CoinFlip.sol) -/

/-- `struct Stats` of `CoinFlipUSDC` (lines 28–33). -/
structure Stats where
  plays : Nat
  wins : Nat
  wagered : Nat
  paidOut : Nat
deriving DecidableEq, Repr

/-- The default (all-zero) mapping entry. -/
def Stats.zero : Stats := ⟨0, 0, 0, 0⟩

/-- `struct Stats` of `CoinFlipGasOnly` (lines 137–140). -/
structure GasStats where
  plays : Nat
  wins : Nat
deriving DecidableEq, Repr

/-- The default (all-zero) mapping entry. -/
def GasStats.zero : GasStats := ⟨0, 0⟩

/-- `PAYOUT_NUM` (CoinFlip.sol line 25). -/
def PAYOUT_NUM : Nat := 195

/-- `PAYOUT_DEN` (CoinFlip.sol line 26). -/
def PAYOUT_DEN : Nat := 100

/-- `CoinFlipUSDC.quotePayout` (lines 120–122): `amount * PAYOUT_NUM / PAYOUT_DEN`
(EVM division truncates, as `Nat` division does). -/
def quotePayout (amount : Nat) : Nat :=
  amount * PAYOUT_NUM / PAYOUT_DEN

/-- The contract state of `CoinFlipUSDC` relevant to `flip`: the per-player
stats mapping and the contract's own stake-token balance. -/
structure USDCState where
  stats : String → Stats
  balance : Nat

/-- The `FlipResult` event of `CoinFlipUSDC` (lines 36–44). -/
structure FlipResult where
  player : String
  guess : Side
  outcome : Side
  won : Bool
  amountIn : Nat
  payoutTotal : Nat
  profitPlayer : Nat
deriving DecidableEq, Repr

/-- `CoinFlipUSDC.flip` (lines 77–117).  Addresses are strings; the entropy
digest `h` (the keccak of blockhash, sender, seed, prevrandao, timestamp and
contract address, lines 88–97) is passed in as a byte list since all of its
preimage is chain-environment data.  `none` models a reverted transaction
(`require` failure); the successful `transferFrom` of the wager is the
`st.balance + amount` credit.  The liquidity `require` only guards a win,
where `payout > 0`; on a loss `payout = 0` and the guard passes vacuously. -/
def flipUSDC (MAX_BET : Nat) (st : USDCState) (sender : String) (guess : Side)
    (amount : Nat) (h : List Nat) : Option (USDCState × FlipResult) :=
  if amount = 0 then none
  else if MAX_BET < amount then none
  else
    let bal := st.balance + amount
    let outcome := bitToSide h
    let won : Bool := decide (outcome = guess)
    let payout := if won then amount * PAYOUT_NUM / PAYOUT_DEN else 0
    if bal < payout then none
    else
      let profit := if payout > amount then payout - amount else 0
      let s := st.stats sender
      let s1 : Stats := ⟨s.plays + 1, s.wins + (if won then 1 else 0),
                         s.wagered + amount, s.paidOut + payout⟩
      some ({ stats := fun a => if a = sender then s1 else st.stats a,
              balance := bal - payout },
            ⟨sender, guess, outcome, won, amount, payout, profit⟩)

/-- `CoinFlipGasOnly.flip` (lines 157–183): no token transfer, no revert
path; returns the updated stats mapping and the `(won, outcome)` pair. -/
def flipGasOnly (stats : String → GasStats) (sender : String) (guess : Side)
    (h : List Nat) : (String → GasStats) × Bool × Side :=
  let outcome := bitToSide h
  let s := stats sender
  let won : Bool := decide (outcome = guess)
  let s1 : GasStats := ⟨s.plays + 1, s.wins + (if won then 1 else 0)⟩
  (fun a => if a = sender then s1 else stats a, won, outcome)

/-- One `flip` transaction submitted to `CoinFlipUSDC`. -/
structure FlipCall where
  sender : String
  guess : Side
  amount : Nat
  h : List Nat

/-- Apply one `CoinFlipUSDC.flip` transaction: a reverted call leaves the
contract state unchanged (EVM transaction atomicity). -/
def stepUSDC (MAX_BET : Nat) (st : USDCState) (c : FlipCall) : USDCState :=
  match flipUSDC MAX_BET st c.sender c.guess c.amount c.h with
  | some (st1, _) => st1
  | none => st

/-- Run a sequence of `CoinFlipUSDC.flip` transactions. -/
def runUSDC (MAX_BET : Nat) (st : USDCState) (cs : List FlipCall) : USDCState :=
  cs.foldl (stepUSDC MAX_BET) st

/-- Apply one `CoinFlipGasOnly.flip` transaction. -/
def stepGasOnly (stats : String → GasStats) (c : FlipCall) : String → GasStats :=
  (flipGasOnly stats c.sender c.guess c.h).1

/-- Run a sequence of `CoinFlipGasOnly.flip` transactions. -/
def runGasOnly (stats : String → GasStats) (cs : List FlipCall) : String → GasStats :=
  cs.foldl stepGasOnly stats

/-! ## String normalization

JavaScript's `toLowerCase()` / `trim()` on wallet addresses, embedded as
executable functions on the underlying character list (the address
alphabet is ASCII). -/

/-- ASCII lowercase of one character. -/
def lowerChar (ch : Char) : Char :=
  if ch.toNat ≥ 65 ∧ ch.toNat ≤ 90 then Char.ofNat (ch.toNat + 32) else ch

/-- `s.toLowerCase()`: ASCII lowercase, character by character. -/
def lowerStr (s : String) : String :=
  ⟨s.data.map lowerChar⟩

/-- ASCII whitespace, as far as `trim()` is concerned here. -/
def isWsChar (ch : Char) : Bool :=
  ch = ' ' ∨ ch = '\t' ∨ ch = '\n' ∨ ch = '\r'

/-- `s.trim()`: strip leading and trailing whitespace. -/
def trimStr (s : String) : String :=
  ⟨((s.data.dropWhile isWsChar).reverse.dropWhile isWsChar).reverse⟩

/-! ## The oracle resolver (api/oracle/check-pending.js)

Chain RPC calls are a record of fallible functions: `Except.error e` models
a JavaScript `throw` whose `error.message` is `e`.  Each embedded function
additionally returns the list of `contract.resolveBet` transactions it
submitted, so "no transaction was sent" is a provable statement. -/

/-- The tuple returned by the `bets(betId)` contract view. -/
structure BetInfo where
  player : String
  amount : Nat
  status : Nat
  placedAtBlock : Nat
deriving DecidableEq, Repr

/-- The parsed arguments of a `BetPlaced` event. -/
structure BetEvent where
  betId : Nat
  player : String
  guess : Nat
  amount : Nat
  clientSeed : Nat
deriving DecidableEq, Repr

/-- A transaction receipt as consumed by the resolver (`tx.wait()`). -/
structure Receipt where
  status : Nat
  blockNumber : Nat
deriving DecidableEq, Repr

/-- One `contract.resolveBet(betId, random, signature)` submission. -/
structure TxCall where
  betId : Nat
  random : Nat
  signature : List Nat
deriving DecidableEq, Repr

/-- The chain interface the resolver consumes.  `queryFilterBet` is
`queryFilter(filters.BetPlaced(betId), from, to)`; `queryFilterAll` is the
unfiltered `filters.BetPlaced()` scan; `sendResolveBet` covers submission
plus `tx.wait()`, yielding the transaction hash and receipt. -/
structure Chain where
  bets : Nat → Except String BetInfo
  getBlockNumber : Except String Nat
  queryFilterBet : Nat → Nat → Nat → Except String (List BetEvent)
  queryFilterAll : Nat → Nat → Except String (List BetEvent)
  oracleSigner : Except String String
  sendResolveBet : TxCall → Except String (String × Receipt)

/-- The per-bet result object built by the sweep's `resolveBet` function. -/
structure SweepResult where
  resolved : Bool
  reason : Option String := none
  error : Option String := none
  betId : Option Nat := none
  transactionHash : Option String := none
  blockNumber : Option Nat := none
deriving DecidableEq, Repr

/-- The body of the sweep's `resolveBet` (check-pending.js lines 45–100),
without the surrounding `try/catch`: an `Except.error` is an exception that
escapes the body.  `sign` is `wallet.signMessage` applied to the 32-byte
message hash.  `Math.max(placedAtBlock - 100, 0)` is `Nat` subtraction. -/
def resolveBetBody (c : Chain) (sign : Nat → List Nat) (serverSeed betId : Nat) :
    Except String SweepResult × List TxCall :=
  match c.bets betId with
  | .error e => (.error e, [])
  | .ok betInfo =>
    if betInfo.status ≠ 1 then
      (.ok { resolved := false, reason := some "Not pending" }, [])
    else
      match c.getBlockNumber with
      | .error e => (.error e, [])
      | .ok currentBlock =>
        let fromBlock := betInfo.placedAtBlock - 100
        match c.queryFilterBet betId fromBlock currentBlock with
        | .error e => (.error e, [])
        | .ok [] => (.ok { resolved := false, reason := some "Event not found" }, [])
        | .ok (ev :: _) =>
          let random := sweepRandom serverSeed ev.clientSeed betId
          let msgHash := natOfBytes (keccak256 (abiEncode2 betId random))
          let t : TxCall := ⟨betId, random, sign msgHash⟩
          match c.sendResolveBet t with
          | .error e => (.error e, [t])
          | .ok (txHash, receipt) =>
            (.ok { resolved := decide (receipt.status = 1), betId := some betId,
                   transactionHash := some txHash,
                   blockNumber := some receipt.blockNumber }, [t])

/-- The sweep's `resolveBet` (lines 44–105): the body inside its
`try/catch` — a thrown error is converted to
`{ resolved: false, error: error.message }`. -/
def resolveBet (c : Chain) (sign : Nat → List Nat) (serverSeed betId : Nat) :
    SweepResult × List TxCall :=
  match resolveBetBody c sign serverSeed betId with
  | (.ok r, txs) => (r, txs)
  | (.error e, txs) => ({ resolved := false, error := some e }, txs)

/-- The sweep's per-bet resolution loop (lines 164–170): resolve each bet
of the batch in order, pushing each result; the inter-bet delay has no
observable effect here. -/
def sweepLoop (c : Chain) (sign : Nat → List Nat) (serverSeed : Nat)
    (betsToResolve : List Nat) : List SweepResult × List TxCall :=
  betsToResolve.foldl
    (fun acc b =>
      let r := resolveBet c sign serverSeed b
      (acc.1 ++ [r.1], acc.2 ++ r.2))
    (([], []) : List SweepResult × List TxCall)

/-- The environment configuration both handlers read.  `none` models an
absent (or otherwise falsy) environment variable; `serverSeed` is the
`bytes32` value denoted by the `SERVER_SEED` hex string, `chainId` and
`viteChainId` the numbers denoted by `CHAIN_ID` / `VITE_CHAIN_ID`. -/
structure Config where
  rpcUrl : Option String
  privateKey : Option String
  contractAddress : Option String
  serverSeed : Option Nat
  chainId : Option Nat
  viteChainId : Option Nat
  cronSecret : Option String

/-- `Number(process.env.CHAIN_ID || process.env.VITE_CHAIN_ID || 763373)`
(check-pending.js lines 125 and 258). -/
def effectiveChainId (cfg : Config) : Nat :=
  (cfg.chainId.orElse (fun _ => cfg.viteChainId)).getD 763373

/-- The cron-secret guard (lines 110–113): passes when `CRON_SECRET` is
unset, or when the Authorization header is exactly `Bearer <secret>`. -/
def cronAuthorized (cfg : Config) (authHeader : Option String) : Bool :=
  match cfg.cronSecret with
  | none => true
  | some secret => authHeader = some ("Bearer " ++ secret)

/-- The JSON body + HTTP status either handler responds with; every field
that a given response does not carry is `none`. -/
structure HttpResponse where
  status : Nat
  success : Option Bool := none
  error : Option String := none
  message : Option String := none
  checked : Option Nat := none
  pending : Option Nat := none
  resolvedCount : Option Nat := none
  results : Option (List SweepResult) := none
  betId : Option Nat := none
  betStatus : Option Nat := none
  transactionHash : Option String := none
  blockNumber : Option Nat := none
  onchain : Option String := none
  walletAddr : Option String := none
deriving DecidableEq, Repr

/-- The sweep (cron) handler (check-pending.js lines 108–188).  The
`1000`-block window is `Math.max(0, currentBlock - 1000)`, i.e. `Nat`
subtraction; the per-event `bets` probe swallows its own errors (lines
150–157); `pendingBets.slice(0, 5)` is `List.take 5`;
the per-bet loop accumulates `resolveBet` results in order. -/
def checkPendingHandler (cfg : Config) (authHeader : Option String) (c : Chain)
    (sign : Nat → List Nat) : HttpResponse × List TxCall :=
  if ¬ cronAuthorized cfg authHeader then
    ({ status := 401, error := some "Unauthorized" }, [])
  else if cfg.rpcUrl.isNone ∨ cfg.privateKey.isNone ∨ cfg.contractAddress.isNone
       ∨ cfg.serverSeed.isNone then
    ({ status := 500, error := some "Missing required environment variables" }, [])
  else
    let SERVER_SEED := cfg.serverSeed.getD 0
    match c.getBlockNumber with
    | .error e =>
      ({ status := 500, error := some "Failed to check pending bets",
         message := some e }, [])
    | .ok currentBlock =>
      match c.queryFilterAll (currentBlock - 1000) currentBlock with
      | .error e =>
        ({ status := 500, error := some "Failed to check pending bets",
           message := some e }, [])
      | .ok events =>
        let pendingBets := events.filterMap (fun ev =>
          match c.bets ev.betId with
          | .ok bi => if bi.status = 1 then some ev.betId else none
          | .error _ => none)
        let betsToResolve := pendingBets.take 5
        let loop := sweepLoop c sign SERVER_SEED betsToResolve
        ({ status := 200, success := some true, checked := some events.length,
           pending := some pendingBets.length,
           resolvedCount := some (loop.1.filter (fun r => r.resolved)).length,
           results := some loop.1 }, loop.2)

/-- The single-bet handler (the second serverless function in
check-pending.js, lines 235–355).  `reqBetId` is `req.body.betId` — `none`
when absent, and JavaScript's `if (!betId)` also rejects `0` as falsy;
`walletAddress` is `wallet.address`, the address derived from the private
key.  A thrown chain error falls to the outer catch
(`500 / "Failed to resolve bet"`). -/
def resolveBetHandler (cfg : Config) (method : String) (reqBetId : Option Nat)
    (walletAddress : String) (c : Chain) (sign : Nat → List Nat) :
    HttpResponse × List TxCall :=
  if method ≠ "POST" then
    ({ status := 405, error := some "Method not allowed" }, [])
  else if reqBetId = none ∨ reqBetId = some 0 then
    ({ status := 400, error := some "betId is required" }, [])
  else if cfg.rpcUrl.isNone ∨ cfg.privateKey.isNone ∨ cfg.contractAddress.isNone
       ∨ cfg.serverSeed.isNone then
    ({ status := 500, error := some "Missing required environment variables" }, [])
  else
    let SERVER_SEED := cfg.serverSeed.getD 0
    let betId := reqBetId.getD 0
    match c.oracleSigner with
    | .error e =>
      ({ status := 500, error := some "Failed to resolve bet", message := some e }, [])
    | .ok onchainOracle =>
      if lowerStr onchainOracle ≠ lowerStr walletAddress then
        ({ status := 500, error := some "Oracle signer mismatch",
           onchain := some onchainOracle, walletAddr := some walletAddress }, [])
      else
        match c.bets betId with
        | .error e =>
          ({ status := 500, error := some "Failed to resolve bet",
             message := some e }, [])
        | .ok betInfo =>
          if betInfo.status ≠ 1 then
            ({ status := 400, error := some "Bet is not pending",
               betStatus := some betInfo.status, betId := some betId }, [])
          else
            match c.getBlockNumber with
            | .error e =>
              ({ status := 500, error := some "Failed to resolve bet",
                 message := some e }, [])
            | .ok currentBlock =>
              let fromBlock := betInfo.placedAtBlock - 100
              match c.queryFilterBet betId fromBlock currentBlock with
              | .error e =>
                ({ status := 500, error := some "Failed to resolve bet",
                   message := some e }, [])
              | .ok [] =>
                ({ status := 404, error := some "BetPlaced event not found" }, [])
              | .ok (ev :: _) =>
                let random := singleRandom SERVER_SEED ev.clientSeed betId
                let msgHash := natOfBytes (keccak256 (abiEncode2 betId random))
                let t : TxCall := ⟨betId, random, sign msgHash⟩
                match c.sendResolveBet t with
                | .error e =>
                  ({ status := 500, error := some "Failed to resolve bet",
                     message := some e }, [t])
                | .ok (txHash, receipt) =>
                  if receipt.status = 0 then
                    ({ status := 500, error := some "Transaction reverted" }, [t])
                  else
                    ({ status := 200, success := some true, betId := some betId,
                       transactionHash := some txHash,
                       blockNumber := some receipt.blockNumber,
                       message := some "Bet resolved successfully" }, [t])

/-! ## Backend one-time bonus routes (server/routes/userRoutes.js)

The MongoDB store is abstracted to the single user document the route
touches: `stored` is the `User.findOne({ walletAddress })` result, and each
route returns the response together with the document as it stands after
the request (unchanged when nothing was saved). -/

/-- The user document fields the bonus routes read or write. -/
structure BUser where
  walletAddress : String
  points : Nat
  twitterFollowed : Bool
  referralUsed : Bool
deriving DecidableEq, Repr

/-- The JSON body of a bonus-route response. -/
structure RouteResponse where
  success : Bool
  message : String
  points : Option Nat := none
  pointsAwarded : Option Nat := none
  requiresOAuth : Bool := false
  trustBased : Bool := false
deriving DecidableEq, Repr

/-- `POST /:walletAddress/twitter-follow` (userRoutes lines 331–388).
`twitterConfigured` is `TWITTER_CLIENT_ID && TWITTER_CLIENT_SECRET`; the
`POINTS_PER_TWITTER_FOLLOW = 10` template literal is inlined into the
award message. -/
def twitterFollowRoute (twitterConfigured : Bool) (walletAddress : String)
    (stored : Option BUser) : RouteResponse × Option BUser :=
  let normalizedAddress := trimStr (lowerStr walletAddress)
  if twitterConfigured then
    ({ success := false,
       message := "Twitter OAuth verification is required. Please use the \"Verify & Claim 10 Points\" button.",
       requiresOAuth := true }, stored)
  else
    let user := stored.getD ⟨normalizedAddress, 0, false, false⟩
    if user.twitterFollowed then
      ({ success := false, message := "Twitter follow points already awarded",
         points := some user.points }, stored)
    else
      let saved : BUser :=
        { user with points := user.points + 10, twitterFollowed := true }
      ({ success := true, message := "Awarded 10 points for Twitter follow",
         points := some saved.points, pointsAwarded := some 10,
         trustBased := true }, some saved)

/-- `POST /:walletAddress/referral` (userRoutes lines 390–434), with
`POINTS_PER_REFERRAL = 5` inlined into the award message. -/
def referralRoute (walletAddress : String) (stored : Option BUser) :
    RouteResponse × Option BUser :=
  let normalizedAddress := trimStr (lowerStr walletAddress)
  let user := stored.getD ⟨normalizedAddress, 0, false, false⟩
  if user.referralUsed then
    ({ success := false, message := "Referral points already awarded",
       points := some user.points }, stored)
  else
    let saved : BUser :=
      { user with points := user.points + 5, referralUsed := true }
    ({ success := true, message := "Awarded 5 points for referral",
       points := some saved.points, pointsAwarded := some 5 }, some saved)

/-! ## Concrete fixtures

Closed sample inputs used by counterexamples and witnesses. -/

/-- A configuration with all four checked variables present and a chain id. -/
def cfgFull : Config :=
  ⟨some "http://rpc", some "0xkey", some "0xcontract", some 7, some 1, none, none⟩

/-- A configuration with the four checked variables present but no chain id
(neither `CHAIN_ID` nor `VITE_CHAIN_ID`). -/
def cfgNoChainId : Config :=
  ⟨some "http://rpc", some "0xkey", some "0xcontract", some 7, none, none, none⟩

/-- A chain on which every bet reads back as already settled (status 2). -/
def settledChain : Chain where
  bets := fun _ => .ok ⟨"0xplayer", 100, 2, 50⟩
  getBlockNumber := .ok 1000
  queryFilterBet := fun _ _ _ => .ok []
  queryFilterAll := fun _ _ => .ok []
  oracleSigner := .ok "0xoracle"
  sendResolveBet := fun _ => .error "unreachable"

/-- A chain with no events at all. -/
def emptyChain : Chain where
  bets := fun _ => .error "no such bet"
  getBlockNumber := .ok 1000
  queryFilterBet := fun _ _ _ => .ok []
  queryFilterAll := fun _ _ => .ok []
  oracleSigner := .ok "0xoracle"
  sendResolveBet := fun _ => .error "unreachable"

/-- A chain on which every RPC read throws. -/
def throwingChain : Chain where
  bets := fun _ => .error "boom"
  getBlockNumber := .error "boom"
  queryFilterBet := fun _ _ _ => .error "boom"
  queryFilterAll := fun _ _ => .error "boom"
  oracleSigner := .error "boom"
  sendResolveBet := fun _ => .error "boom"

/-- A chain with seven pending `BetPlaced` events (bet ids 1–7) whose
per-bet event query comes back empty, so each resolution stops at
"Event not found". -/
def sevenPendingChain : Chain where
  bets := fun _ => .ok ⟨"0xplayer", 100, 1, 50⟩
  getBlockNumber := .ok 1000
  queryFilterBet := fun _ _ _ => .ok []
  queryFilterAll := fun _ _ =>
    .ok ((List.range 7).map (fun i => ⟨i + 1, "0xplayer", 0, 100, 42⟩))
  oracleSigner := .ok "0xoracle"
  sendResolveBet := fun _ => .error "unreachable"

/-! ## Theorems -/

/-- C1: For every serverSecret (32 bytes), clientSeed and betId (256-bit
integers), both the sweep resolver and the single-bet resolver compute
`random = keccak256(abiEncode(bytes32 serverSecret, uint256 clientSeed,
uint256 betId))` and `messageHash = keccak256(abiEncode(uint256 betId,
bytes32 random))`; being functions of their inputs, equal inputs always
yield equal `random` and `messageHash`. -/
theorem resolvers_agree_on_commitment (s c b : Nat) :
    sweepRandom s c b = natOfBytes (keccak256 (abiEncode3 s c b)) ∧
    singleRandom s c b = natOfBytes (keccak256 (abiEncode3 s c b)) ∧
    sweepMsgHash s c b = natOfBytes (keccak256 (abiEncode2 b (sweepRandom s c b))) ∧
    singleMsgHash s c b = natOfBytes (keccak256 (abiEncode2 b (singleRandom s c b))) ∧
    sweepRandom s c b = singleRandom s c b ∧
    sweepMsgHash s c b = singleMsgHash s c b :=
  ⟨rfl, rfl, rfl, rfl, rfl, rfl⟩

/-- C2: for every digest, the outcome is Heads exactly when the
least-significant bit of the leading byte is 0 and Tails otherwise, and the
client-side mapping of the numeric outcome (Heads = 0 ↦ "heads") agrees
with the same bit rule. -/
theorem outcome_lsb_rule (h : List Nat) :
    (bitToSide h = Side.Heads ↔ h.headD 0 &&& 1 = 0) ∧
    (bitToSide h = Side.Tails ↔ ¬ h.headD 0 &&& 1 = 0) ∧
    clientOutcomeSide (bitToSide h).val
      = (if h.headD 0 &&& 1 = 0 then "heads" else "tails") := by
  unfold bitToSide clientOutcomeSide Side.val
  generalize h.headD 0 = n
  have hm : n &&& 1 = n % 2 := Nat.and_one_is_mod _
  rcases Nat.mod_two_eq_zero_or_one n with hb | hb <;> simp [hm, hb]

/-- C3 counterexample: on a chain where bet 1 reads back as settled
(status 2), the single-bet handler responds HTTP 400 with an `error` field
and no `success` marker — a failure report, refuting "never as a failure"
for single-bet mode (no transaction is submitted, though). -/
theorem single_not_pending_reported_as_error :
    (resolveBetHandler cfgFull "POST" (some 1) "0xoracle" settledChain
        (fun _ => []))
      = ({ status := 400, error := some "Bet is not pending",
           betStatus := some 2, betId := some 1 }, []) := by
  rfl

/-- C3 amended: a non-pending bet never causes a transaction; the sweep
resolver reports it as the non-error `{resolved: false, reason: "Not
pending"}`, while the single-bet handler reports it as an HTTP 400 error
response `{error: "Bet is not pending"}`. -/
theorem not_pending_paths (c : Chain) (sign : Nat → List Nat)
    (r k ca wa osig : String) (seed betId : Nat) (ci vci : Option Nat)
    (cs : Option String) (bi : BetInfo)
    (hbets : c.bets betId = .ok bi) (hstat : bi.status ≠ 1) (hbet0 : betId ≠ 0)
    (hosig : c.oracleSigner = .ok osig)
    (hmatch : lowerStr osig = lowerStr wa) :
    resolveBet c sign seed betId
      = ({ resolved := false, reason := some "Not pending" }, []) ∧
    resolveBetHandler ⟨some r, some k, some ca, some seed, ci, vci, cs⟩ "POST"
        (some betId) wa c sign
      = ({ status := 400, error := some "Bet is not pending",
           betStatus := some bi.status, betId := some betId }, []) := by
  constructor
  · unfold resolveBet resolveBetBody
    rw [hbets]
    simp [hstat]
  · unfold resolveBetHandler
    rw [hosig]
    simp [hbet0, hbets, hmatch, hstat]

/-- Witness for `not_pending_paths` at the settled-bet fixture. -/
theorem not_pending_paths_witness :
    resolveBet settledChain (fun _ => []) 7 1
      = ({ resolved := false, reason := some "Not pending" }, []) ∧
    resolveBetHandler ⟨some "http://rpc", some "0xkey", some "0xcontract",
        some 7, some 1, none, none⟩ "POST" (some 1) "0xoracle" settledChain
        (fun _ => [])
      = ({ status := 400, error := some "Bet is not pending",
           betStatus := some 2, betId := some 1 }, []) :=
  not_pending_paths settledChain (fun _ => []) "http://rpc" "0xkey"
    "0xcontract" "0xoracle" "0xoracle" 7 1 (some 1) none none
    ⟨"0xplayer", 100, 2, 50⟩ rfl (by decide) (by decide) rfl rfl

/-- The sweep loop's collected results are exactly the in-order map of the
caught per-bet resolver over the batch. -/
theorem sweepLoop_eq_map (c : Chain) (sign : Nat → List Nat) (seed : Nat)
    (bets : List Nat) :
    sweepLoop c sign seed bets
      = (bets.map (fun b => (resolveBet c sign seed b).1),
         (bets.map (fun b => (resolveBet c sign seed b).2)).flatten) := by
  unfold sweepLoop
  suffices h : ∀ (bs : List Nat) (acc : List SweepResult × List TxCall),
      bs.foldl (fun acc b =>
          (acc.1 ++ [(resolveBet c sign seed b).1],
           acc.2 ++ (resolveBet c sign seed b).2)) acc
        = (acc.1 ++ bs.map (fun b => (resolveBet c sign seed b).1),
           acc.2 ++ (bs.map (fun b => (resolveBet c sign seed b).2)).flatten) by
    simpa using h bets ([], [])
  intro bs
  induction bs with
  | nil => intro acc; simp
  | cons b rest ih => intro acc; simp [ih]

/-- C4: in sweep mode, a failure thrown inside the resolution of bet `i` is
caught and becomes that bet's per-result error object, and every bet of the
batch is attempted, its own result reported at its own position. -/
theorem sweep_batch_isolation (c : Chain) (sign : Nat → List Nat) (seed : Nat)
    (bets : List Nat) (i : Nat) (hi : i < bets.length) (e : String)
    (hthrow : (resolveBetBody c sign seed bets[i]).1 = .error e) :
    (sweepLoop c sign seed bets).1.length = bets.length ∧
    (∀ j, (hj : j < bets.length) →
      (sweepLoop c sign seed bets).1[j]?
        = some ((resolveBet c sign seed bets[j]).1)) ∧
    (sweepLoop c sign seed bets).1[i]?
      = some { resolved := false, error := some e } := by
  have hmap := sweepLoop_eq_map c sign seed bets
  have hres : (resolveBet c sign seed bets[i]).1
      = { resolved := false, error := some e } := by
    unfold resolveBet
    rw [show resolveBetBody c sign seed bets[i]
          = (.error e, (resolveBetBody c sign seed bets[i]).2) from by
        rw [← hthrow]]
  refine ⟨?_, ?_, ?_⟩
  · rw [hmap]; simp
  · intro j hj
    rw [hmap]
    simp [List.getElem?_map, List.getElem?_eq_getElem hj]
  · rw [hmap]
    simp [List.getElem?_map, List.getElem?_eq_getElem hi, hres]

/-- Witness for `sweep_batch_isolation`: a one-bet batch on a chain whose
every read throws. -/
theorem sweep_batch_isolation_witness :
    (sweepLoop throwingChain (fun _ => []) 7 [1]).1.length = [1].length ∧
    (∀ j, (hj : j < ([1] : List Nat).length) →
      (sweepLoop throwingChain (fun _ => []) 7 [1]).1[j]?
        = some ((resolveBet throwingChain (fun _ => []) 7 (([1] : List Nat)[j])).1)) ∧
    (sweepLoop throwingChain (fun _ => []) 7 [1]).1[0]?
      = some { resolved := false, error := some "boom" } :=
  sweep_batch_isolation throwingChain (fun _ => []) 7 [1] 0 (by decide)
    "boom" rfl

/-- In every branch of the sweep handler, the length of the reported
results array (empty when the field is absent) is the minimum of the
reported pending count (0 when absent) and 5. -/
theorem checkPending_results_length (cfg : Config) (authHeader : Option String)
    (c : Chain) (sign : Nat → List Nat) :
    (((checkPendingHandler cfg authHeader c sign).1.results).getD []).length
      = min (((checkPendingHandler cfg authHeader c sign).1.pending).getD 0) 5 := by
  unfold checkPendingHandler
  split
  · rfl
  split
  · rfl
  split
  · rfl
  split
  · rfl
  simp [sweepLoop_eq_map, List.length_take, Nat.min_comm]

/-- C5: whenever a sweep invocation reports a results array and a pending
count, at most 5 bets were attempted: the results array has length
min(pending, 5), however many pending bets the scan found. -/
theorem sweep_batch_cap (cfg : Config) (authHeader : Option String) (c : Chain)
    (sign : Nat → List Nat) (res : List SweepResult) (p : Nat)
    (hres : (checkPendingHandler cfg authHeader c sign).1.results = some res)
    (hp : (checkPendingHandler cfg authHeader c sign).1.pending = some p) :
    res.length = min p 5 := by
  have h := checkPending_results_length cfg authHeader c sign
  rw [hres, hp] at h
  simpa using h

/-- Witness for `sweep_batch_cap`: seven pending bets, five attempted. -/
theorem sweep_batch_cap_witness :
    (List.replicate 5
      ({ resolved := false, reason := some "Event not found" } : SweepResult)).length
      = min 7 5 :=
  sweep_batch_cap cfgFull none sevenPendingChain (fun _ => [])
    (List.replicate 5 { resolved := false, reason := some "Event not found" })
    7 (by decide) (by decide)

/-- C6 counterexample: with the chain id absent (neither `CHAIN_ID` nor
`VITE_CHAIN_ID` set) but the other four values present, neither handler
returns a configuration error: the sweep completes a scan (HTTP 200) and
the single-bet handler proceeds past the chain reads to the bet-status
check; the missing chain id silently defaults to 763373. -/
theorem chainid_not_required :
    (checkPendingHandler cfgNoChainId none emptyChain (fun _ => [])).1
      = { status := 200, success := some true, checked := some 0,
          pending := some 0, resolvedCount := some 0, results := some [] } ∧
    effectiveChainId cfgNoChainId = 763373 ∧
    (resolveBetHandler cfgNoChainId "POST" (some 1) "0xoracle" settledChain
        (fun _ => [])).1.error = some "Bet is not pending" :=
  ⟨rfl, rfl, rfl⟩

/-- C6 amended: the RPC endpoint, signing key, contract address and server
secret are required by both modes — if any one of those four is absent,
each handler returns the fatal "Missing required environment variables"
response, submits nothing, and its output does not depend on the chain —
while the chain id is optional, defaulting to
`CHAIN_ID || VITE_CHAIN_ID || 763373`. -/
theorem required_config_vars (cfg : Config) (authHeader : Option String)
    (c : Chain) (sign : Nat → List Nat) (reqBetId : Option Nat) (wa : String)
    (hmiss : cfg.rpcUrl = none ∨ cfg.privateKey = none ∨
             cfg.contractAddress = none ∨ cfg.serverSeed = none)
    (hauth : cronAuthorized cfg authHeader = true)
    (hbet : reqBetId ≠ none ∧ reqBetId ≠ some 0) :
    checkPendingHandler cfg authHeader c sign
      = ({ status := 500,
           error := some "Missing required environment variables" }, []) ∧
    resolveBetHandler cfg "POST" reqBetId wa c sign
      = ({ status := 500,
           error := some "Missing required environment variables" }, []) ∧
    (∀ cfg2 : Config, cfg2.chainId = none → cfg2.viteChainId = none →
      effectiveChainId cfg2 = 763373) := by
  have hcond : (cfg.rpcUrl.isNone ∨ cfg.privateKey.isNone ∨
      cfg.contractAddress.isNone ∨ cfg.serverSeed.isNone) := by
    rcases hmiss with h | h | h | h <;> simp [h]
  refine ⟨?_, ?_, ?_⟩
  · unfold checkPendingHandler
    rw [if_neg (by simp [hauth]), if_pos hcond]
  · unfold resolveBetHandler
    rw [if_neg (by simp), if_neg (by simp [hbet.1, hbet.2]), if_pos hcond]
  · intro cfg2 h1 h2
    simp [effectiveChainId, h1, h2, Option.orElse]

/-- Witness for `required_config_vars`: the signing key alone is missing. -/
theorem required_config_vars_witness :
    checkPendingHandler ⟨some "http://rpc", none, some "0xcontract", some 7,
        some 1, none, none⟩ none throwingChain (fun _ => [])
      = ({ status := 500,
           error := some "Missing required environment variables" }, []) ∧
    resolveBetHandler ⟨some "http://rpc", none, some "0xcontract", some 7,
        some 1, none, none⟩ "POST" (some 1) "0xoracle" throwingChain
        (fun _ => [])
      = ({ status := 500,
           error := some "Missing required environment variables" }, []) ∧
    (∀ cfg2 : Config, cfg2.chainId = none → cfg2.viteChainId = none →
      effectiveChainId cfg2 = 763373) :=
  required_config_vars ⟨some "http://rpc", none, some "0xcontract", some 7,
      some 1, none, none⟩ none throwingChain (fun _ => []) (some 1) "0xoracle"
    (Or.inr (Or.inl rfl)) rfl ⟨by decide, by decide⟩

/-- C7: in single-bet mode with the configuration present, when the
on-chain `oracleSigner()` differs (case-insensitively) from the resolver's
wallet address, the handler returns the fatal mismatch error, submits no
transaction, and its response is fixed before any bet read, commitment
computation or submission — it does not depend on any other chain field. -/
theorem oracle_signer_guard (c : Chain) (sign : Nat → List Nat)
    (r k ca wa osig : String) (seed : Nat) (ci vci : Option Nat)
    (cs : Option String) (reqBetId : Option Nat)
    (hbet : reqBetId ≠ none ∧ reqBetId ≠ some 0)
    (hosig : c.oracleSigner = .ok osig)
    (hmismatch : lowerStr osig ≠ lowerStr wa) :
    resolveBetHandler ⟨some r, some k, some ca, some seed, ci, vci, cs⟩ "POST"
        reqBetId wa c sign
      = ({ status := 500, error := some "Oracle signer mismatch",
           onchain := some osig, walletAddr := some wa }, []) := by
  unfold resolveBetHandler
  rw [hosig]
  simp [hbet.1, hbet.2, hmismatch]

/-- Witness for `oracle_signer_guard`: the wallet differs from the on-chain
oracle beyond letter case. -/
theorem oracle_signer_guard_witness :
    resolveBetHandler ⟨some "http://rpc", some "0xkey", some "0xcontract",
        some 7, some 1, none, none⟩ "POST" (some 1) "0xOTHER" settledChain
        (fun _ => [])
      = ({ status := 500, error := some "Oracle signer mismatch",
           onchain := some "0xoracle", walletAddr := some "0xOTHER" }, []) :=
  oracle_signer_guard settledChain (fun _ => []) "http://rpc" "0xkey"
    "0xcontract" "0xOTHER" "0xoracle" 7 (some 1) none none (some 1)
    ⟨by decide, by decide⟩ rfl (by decide)

/-- Characterization of a successful `CoinFlipUSDC.flip`: the emitted event
fields and the stats update it performs. -/
theorem flipUSDC_spec (MAX_BET : Nat) (st : USDCState) (sender : String)
    (guess : Side) (amount : Nat) (h : List Nat) (st1 : USDCState)
    (ev : FlipResult)
    (hflip : flipUSDC MAX_BET st sender guess amount h = some (st1, ev)) :
    ev.won = decide (bitToSide h = guess) ∧
    ev.guess = guess ∧
    ev.outcome = bitToSide h ∧
    ev.amountIn = amount ∧
    ev.payoutTotal = (if ev.won then amount * PAYOUT_NUM / PAYOUT_DEN else 0) ∧
    st1.stats sender
      = ⟨(st.stats sender).plays + 1,
         (st.stats sender).wins + (if ev.won then 1 else 0),
         (st.stats sender).wagered + amount,
         (st.stats sender).paidOut + ev.payoutTotal⟩ ∧
    (∀ a, a ≠ sender → st1.stats a = st.stats a) := by
  unfold flipUSDC at hflip
  split at hflip
  · cases hflip
  split at hflip
  · cases hflip
  dsimp only at hflip
  split at hflip
  next hcond =>
    split at hflip
    · cases hflip
    injection hflip with hpair
    injection hpair with hst hev
    subst hst
    subst hev
    refine ⟨rfl, rfl, rfl, rfl, by simp [hcond], by simp [hcond], ?_⟩
    intro a ha
    simp [ha]
  next hcond =>
    split at hflip
    · cases hflip
    injection hflip with hpair
    injection hpair with hst hev
    subst hst
    subst hev
    refine ⟨rfl, rfl, rfl, rfl, by simp [hcond], by simp [hcond], ?_⟩
    intro a ha
    simp [ha]

/-- C8: every settled `CoinFlipUSDC.flip` pays, as the event's
`payoutTotal`, exactly floor(amount · 195 / 100) on a win (1.95×, principal
included) and 0 on a loss; `quotePayout` quotes the same formula, and
`quotePayout 100 = 195`. -/
theorem payout_rule (MAX_BET : Nat) (st : USDCState) (sender : String)
    (guess : Side) (amount : Nat) (h : List Nat) (st1 : USDCState)
    (ev : FlipResult)
    (hflip : flipUSDC MAX_BET st sender guess amount h = some (st1, ev)) :
    ev.payoutTotal = (if ev.won then amount * 195 / 100 else 0) ∧
    (ev.won = false → ev.payoutTotal = 0) ∧
    quotePayout amount = amount * 195 / 100 ∧
    quotePayout 100 = 195 := by
  obtain ⟨hw, hg, ho, ha, hp, hs, hother⟩ :=
    flipUSDC_spec MAX_BET st sender guess amount h st1 ev hflip
  refine ⟨hp, ?_, rfl, rfl⟩
  intro hl
  rw [hp, hl]
  simp

/-- Witness for `payout_rule`: a won 100-unit bet pays 195. -/
theorem payout_rule_witness :
    (195 : Nat) = (if true then 100 * 195 / 100 else 0) ∧
    (true = false → (195 : Nat) = 0) ∧
    quotePayout 100 = 100 * 195 / 100 ∧
    quotePayout 100 = 195 :=
  payout_rule 500 ⟨fun _ => Stats.zero, 100⟩ "p" Side.Heads 100 [0]
    ⟨fun a => if a = "p" then ⟨1, 1, 100, 195⟩ else Stats.zero, 5⟩
    ⟨"p", Side.Heads, Side.Heads, true, 100, 195, 95⟩ rfl

/-- One `CoinFlipUSDC.flip` transaction preserves `wins ≤ plays` for every
player. -/
theorem stepUSDC_wins_le (MAX_BET : Nat) (st : USDCState) (fc : FlipCall)
    (hinv : ∀ a, (st.stats a).wins ≤ (st.stats a).plays) :
    ∀ a, ((stepUSDC MAX_BET st fc).stats a).wins
      ≤ ((stepUSDC MAX_BET st fc).stats a).plays := by
  intro a
  unfold stepUSDC
  cases hc : flipUSDC MAX_BET st fc.sender fc.guess fc.amount fc.h with
  | none => exact hinv a
  | some p =>
    obtain ⟨st1, ev⟩ := p
    obtain ⟨hw, hg, ho, ha, hp, hs, hother⟩ :=
      flipUSDC_spec MAX_BET st fc.sender fc.guess fc.amount fc.h st1 ev hc
    by_cases hA : a = fc.sender
    · subst hA
      rw [hs]
      have := hinv fc.sender
      dsimp
      split <;> omega
    · rw [hother a hA]
      exact hinv a

/-- One `CoinFlipGasOnly.flip` transaction preserves `wins ≤ plays` for
every player. -/
theorem stepGasOnly_wins_le (stats : String → GasStats) (fc : FlipCall)
    (hinv : ∀ a, (stats a).wins ≤ (stats a).plays) :
    ∀ a, ((stepGasOnly stats fc) a).wins ≤ ((stepGasOnly stats fc) a).plays := by
  intro a
  unfold stepGasOnly flipGasOnly
  dsimp
  by_cases hA : a = fc.sender
  · have := hinv fc.sender
    simp only [hA, if_pos rfl]
    dsimp
    split <;> omega
  · simp only [if_neg hA]
    exact hinv a

/-- C9: for every player, `wins ≤ plays` holds after any sequence of `flip`
calls in both contracts (from the deployed all-zero stats); each successful
`CoinFlipUSDC.flip` increments the sender's plays by exactly 1, increments
wins by 1 exactly when the guess matched the outcome, and leaves `paidOut`
unchanged unless the bet was won; `CoinFlipGasOnly.flip` increments plays
and wins the same way. -/
theorem flip_stats_invariant :
    (∀ (MAX_BET b : Nat) (cs : List FlipCall) (a : String),
      ((runUSDC MAX_BET ⟨fun _ => Stats.zero, b⟩ cs).stats a).wins
        ≤ ((runUSDC MAX_BET ⟨fun _ => Stats.zero, b⟩ cs).stats a).plays) ∧
    (∀ (cs : List FlipCall) (a : String),
      ((runGasOnly (fun _ => GasStats.zero) cs) a).wins
        ≤ ((runGasOnly (fun _ => GasStats.zero) cs) a).plays) ∧
    (∀ (MAX_BET : Nat) (st : USDCState) (sender : String) (guess : Side)
        (amount : Nat) (h : List Nat) (st1 : USDCState) (ev : FlipResult),
      flipUSDC MAX_BET st sender guess amount h = some (st1, ev) →
      (st1.stats sender).plays = (st.stats sender).plays + 1 ∧
      (st1.stats sender).wins
        = (st.stats sender).wins + (if ev.won then 1 else 0) ∧
      ev.won = decide (ev.outcome = ev.guess) ∧
      (ev.won = false →
        (st1.stats sender).paidOut = (st.stats sender).paidOut)) ∧
    (∀ (stats : String → GasStats) (sender : String) (guess : Side)
        (h : List Nat),
      ((flipGasOnly stats sender guess h).1 sender).plays
        = (stats sender).plays + 1 ∧
      ((flipGasOnly stats sender guess h).1 sender).wins
        = (stats sender).wins
          + (if (flipGasOnly stats sender guess h).2.1 then 1 else 0)) := by
  refine ⟨?_, ?_, ?_, ?_⟩
  · intro MAX_BET b cs a
    have hrun : ∀ (cs : List FlipCall) (st : USDCState),
        (∀ x, (st.stats x).wins ≤ (st.stats x).plays) →
        ∀ x, ((runUSDC MAX_BET st cs).stats x).wins
          ≤ ((runUSDC MAX_BET st cs).stats x).plays := by
      intro cs
      induction cs with
      | nil => intro st hst x; exact hst x
      | cons fc rest ih =>
        intro st hst x
        exact ih (stepUSDC MAX_BET st fc) (stepUSDC_wins_le MAX_BET st fc hst) x
    exact hrun cs ⟨fun _ => Stats.zero, b⟩ (fun _ => Nat.le_refl 0) a
  · intro cs a
    have hrun : ∀ (cs : List FlipCall) (stats : String → GasStats),
        (∀ x, (stats x).wins ≤ (stats x).plays) →
        ∀ x, ((runGasOnly stats cs) x).wins ≤ ((runGasOnly stats cs) x).plays := by
      intro cs
      induction cs with
      | nil => intro stats hst x; exact hst x
      | cons fc rest ih =>
        intro stats hst x
        exact ih (stepGasOnly stats fc) (stepGasOnly_wins_le stats fc hst) x
    exact hrun cs (fun _ => GasStats.zero) (fun _ => Nat.le_refl 0) a
  · intro MAX_BET st sender guess amount h st1 ev hflip
    obtain ⟨hw, hg, ho, ha, hp, hs, hother⟩ :=
      flipUSDC_spec MAX_BET st sender guess amount h st1 ev hflip
    refine ⟨?_, ?_, ?_, ?_⟩
    · rw [hs]
    · rw [hs]
    · rw [hw, ho, hg]
    · intro hl
      rw [hs, hp, hl]
      simp
  · intro stats sender guess h
    unfold flipGasOnly
    dsimp
    constructor <;> simp

/-- Witness for `flip_stats_invariant`: one concrete won flip. -/
theorem flip_stats_invariant_witness :
    (((runUSDC 500 ⟨fun _ => Stats.zero, 100⟩
        [⟨"p", Side.Heads, 100, [0]⟩]).stats "p").wins
      ≤ ((runUSDC 500 ⟨fun _ => Stats.zero, 100⟩
        [⟨"p", Side.Heads, 100, [0]⟩]).stats "p").plays) ∧
    ((1 : Nat) = 0 + 1 ∧
     (1 : Nat) = 0 + (if true then 1 else 0) ∧
     (true : Bool) = decide (Side.Heads = Side.Heads) ∧
     (true = false → (195 : Nat) = 0)) :=
  ⟨flip_stats_invariant.1 500 100 [⟨"p", Side.Heads, 100, [0]⟩] "p",
   flip_stats_invariant.2.2.1 500 ⟨fun _ => Stats.zero, 100⟩ "p" Side.Heads
     100 [0] ⟨fun a => if a = "p" then ⟨1, 1, 100, 195⟩ else Stats.zero, 5⟩
     ⟨"p", Side.Heads, Side.Heads, true, 100, 195, 95⟩ rfl⟩

/-- C10 counterexample: with the Twitter API configured, a repeated POST
for a wallet whose `twitterFollowed` flag is already set responds with the
OAuth-required message, not the "already awarded" message (points are
nevertheless unchanged), refuting the claimed response shape. -/
theorem twitter_follow_configured_no_already_awarded :
    (twitterFollowRoute true "0xabc" (some ⟨"0xabc", 3, true, false⟩)).1.message
      ≠ "Twitter follow points already awarded" ∧
    (twitterFollowRoute true "0xabc" (some ⟨"0xabc", 3, true, false⟩)).1.success
      = false ∧
    (twitterFollowRoute true "0xabc" (some ⟨"0xabc", 3, true, false⟩)).2
      = some ⟨"0xabc", 3, true, false⟩ := by
  refine ⟨?_, rfl, rfl⟩
  decide

/-- C10 amended: the referral route is unconditionally idempotent, and the
twitter-follow route is idempotent on its trust-based path (Twitter API not
configured): a repeated POST for a wallet whose flag is already set leaves
the stored user (hence its points) unchanged and responds success:false
with the "already awarded" message and the unchanged points; with the
Twitter API configured, twitter-follow instead short-circuits with
success:false (`requiresOAuth`), still leaving the stored user unchanged. -/
theorem bonus_routes_idempotent (w : String) (u : BUser)
    (htw : u.twitterFollowed = true) (href : u.referralUsed = true) :
    twitterFollowRoute false w (some u)
      = ({ success := false,
           message := "Twitter follow points already awarded",
           points := some u.points }, some u) ∧
    referralRoute w (some u)
      = ({ success := false,
           message := "Referral points already awarded",
           points := some u.points }, some u) ∧
    (∀ (w2 : String) (s : Option BUser),
      (twitterFollowRoute true w2 s).2 = s ∧
      (twitterFollowRoute true w2 s).1.success = false) := by
  refine ⟨?_, ?_, ?_⟩
  · unfold twitterFollowRoute
    simp [htw]
  · unfold referralRoute
    simp [href]
  · intro w2 s
    exact ⟨rfl, rfl⟩

/-- Witness for `bonus_routes_idempotent`: a user with both flags set and
12 points keeps exactly 12 points on repeated POSTs. -/
theorem bonus_routes_idempotent_witness :
    twitterFollowRoute false "0xAbc" (some ⟨"0xabc", 12, true, true⟩)
      = ({ success := false,
           message := "Twitter follow points already awarded",
           points := some 12 }, some ⟨"0xabc", 12, true, true⟩) ∧
    referralRoute "0xAbc" (some ⟨"0xabc", 12, true, true⟩)
      = ({ success := false,
           message := "Referral points already awarded",
           points := some 12 }, some ⟨"0xabc", 12, true, true⟩) ∧
    (∀ (w2 : String) (s : Option BUser),
      (twitterFollowRoute true w2 s).2 = s ∧
      (twitterFollowRoute true w2 s).1.success = false) :=
  bonus_routes_idempotent "0xAbc" ⟨"0xabc", 12, true, true⟩ rfl rfl

end Boink
